import Mathlib

set_option maxRecDepth 100000

/-!
Shallow embedding of the zipiq-backend archival subsystem:
the Arweave archival queue (`src/services/arweave.js`, class `ArweaveService`)
and the mock content store (`MockIPFSService` in the unnamed `ipfs.js` source,
`src/unnamed/part_004`).

Machine integers are modelled as `Nat` with explicit reduction `% 2^32` where
the underlying hash arithmetic is 32-bit.  JavaScript `Map`s are modelled as
association lists with JS `Map` semantics (`set` overwrites in place keeping
insertion order, otherwise appends; `delete` removes the entry).  Wall-clock
reads (`Date.now()`, `new Date()`) are passed in explicitly as a `now : Nat`
parameter (milliseconds).
-/

namespace Zipiq

/-! ### SHA-256 (the `crypto.createHash('sha256')` dependency of
`MockIPFSService.generateMockHash`), bytes as `Nat` < 256, words as `Nat` < 2^32 -/

def w32 (x : Nat) : Nat := x % 4294967296

def rotr32 (n x : Nat) : Nat := w32 ((x >>> n) ||| (x <<< (32 - n)))

def bigSigma0 (x : Nat) : Nat := (rotr32 2 x) ^^^ (rotr32 13 x) ^^^ (rotr32 22 x)

def bigSigma1 (x : Nat) : Nat := (rotr32 6 x) ^^^ (rotr32 11 x) ^^^ (rotr32 25 x)

def smallSigma0 (x : Nat) : Nat := (rotr32 7 x) ^^^ (rotr32 18 x) ^^^ (x >>> 3)

def smallSigma1 (x : Nat) : Nat := (rotr32 17 x) ^^^ (rotr32 19 x) ^^^ (x >>> 10)

def chF (x y z : Nat) : Nat := (x &&& y) ^^^ ((x ^^^ 4294967295) &&& z)

def majF (x y z : Nat) : Nat := (x &&& y) ^^^ (x &&& z) ^^^ (y &&& z)

/-- The 64 SHA-256 round constants, in decimal. -/
def sha256K : List Nat :=
  [1116352408, 1899447441, 3049323471, 3921009573, 961987163, 1508970993,
   2453635748, 2870763221, 3624381080, 310598401, 607225278, 1426881987,
   1925078388, 2162078206, 2614888103, 3248222580, 3835390401, 4022224774,
   264347078, 604807628, 770255983, 1249150122, 1555081692, 1996064986,
   2554220882, 2821834349, 2952996808, 3210313671, 3336571891, 3584528711,
   113926993, 338241895, 666307205, 773529912, 1294757372, 1396182291,
   1695183700, 1986661051, 2177026350, 2456956037, 2730485921, 2820302411,
   3259730800, 3345764771, 3516065817, 3600352804, 4094571909, 275423344,
   430227734, 506948616, 659060556, 883997877, 958139571, 1322822218,
   1537002063, 1747873779, 1955562222, 2024104815, 2227730452, 2361852424,
   2428436474, 2756734187, 3204031479, 3329325298]

/-- Big-endian 8-byte encoding of a (bit-)length. -/
def beBytes8 (n : Nat) : List Nat :=
  [(n >>> 56) % 256, (n >>> 48) % 256, (n >>> 40) % 256, (n >>> 32) % 256,
   (n >>> 24) % 256, (n >>> 16) % 256, (n >>> 8) % 256, n % 256]

/-- SHA-256 padding: append 0x80, zero bytes to 56 mod 64, then the 64-bit
big-endian bit length. -/
def sha256Pad (msg : List Nat) : List Nat :=
  let len := msg.length
  let zeros := (119 - (len % 64)) % 64
  msg ++ 128 :: List.replicate zeros 0 ++ beBytes8 (len * 8)

/-- Group the padded byte stream into 4-byte big-endian words. -/
def bytesToWords : List Nat → List Nat
  | b0 :: b1 :: b2 :: b3 :: rest =>
      ((b0 <<< 24) + (b1 <<< 16) + (b2 <<< 8) + b3) :: bytesToWords rest
  | _ => []

/-- Message-schedule extension; `acc` holds the words produced so far in
reverse order (newest first). -/
def extendLoop : List Nat → Nat → List Nat
  | acc, 0 => acc
  | acc, fuel + 1 =>
      let v := w32 (smallSigma1 (acc.getD 1 0) + acc.getD 6 0 +
                    smallSigma0 (acc.getD 14 0) + acc.getD 15 0)
      extendLoop (v :: acc) fuel

def scheduleWords (first16 : List Nat) : List Nat :=
  (extendLoop first16.reverse 48).reverse

/-- Running hash state: eight 32-bit words. -/
structure H8 where
  a : Nat
  b : Nat
  c : Nat
  d : Nat
  e : Nat
  f : Nat
  g : Nat
  hh : Nat
deriving DecidableEq, Repr

/-- The eight SHA-256 initial hash values, in decimal. -/
def sha256Init : H8 :=
  ⟨1779033703, 3144134277, 1013904242, 2773480762,
   1359893119, 2600822924, 528734635, 1541459225⟩

def sha256Round (s : H8) (ki wi : Nat) : H8 :=
  let t1 := w32 (s.hh + bigSigma1 s.e + chF s.e s.f s.g + ki + wi)
  let t2 := w32 (bigSigma0 s.a + majF s.a s.b s.c)
  ⟨w32 (t1 + t2), s.a, s.b, s.c, w32 (s.d + t1), s.e, s.f, s.g⟩

def compressBlock (s : H8) (block : List Nat) : H8 :=
  let ws := scheduleWords (bytesToWords block)
  let t := (sha256K.zip ws).foldl (fun st kw => sha256Round st kw.1 kw.2) s
  ⟨w32 (s.a + t.a), w32 (s.b + t.b), w32 (s.c + t.c), w32 (s.d + t.d),
   w32 (s.e + t.e), w32 (s.f + t.f), w32 (s.g + t.g), w32 (s.hh + t.hh)⟩

def toBlocksAux : Nat → List Nat → List (List Nat)
  | 0, _ => []
  | _, [] => []
  | fuel + 1, l => l.take 64 :: toBlocksAux fuel (l.drop 64)

/-- Split a byte stream into 64-byte blocks (the padded stream's length is a
multiple of 64, so the fuel `l.length` is always enough). -/
def toBlocks (l : List Nat) : List (List Nat) := toBlocksAux l.length l

def beBytes4 (n : Nat) : List Nat :=
  [(n >>> 24) % 256, (n >>> 16) % 256, (n >>> 8) % 256, n % 256]

/-- SHA-256 digest of a byte sequence, as a list of 32 bytes. -/
def sha256 (msg : List Nat) : List Nat :=
  let final := (toBlocks (sha256Pad msg)).foldl compressBlock sha256Init
  beBytes4 final.a ++ beBytes4 final.b ++ beBytes4 final.c ++ beBytes4 final.d ++
  beBytes4 final.e ++ beBytes4 final.f ++ beBytes4 final.g ++ beBytes4 final.hh

def hexChar (n : Nat) : Char := if n < 10 then Char.ofNat (48 + n) else Char.ofNat (87 + n)

def hexByte (b : Nat) : List Char := [hexChar (b / 16), hexChar (b % 16)]

/-- Lowercase hex rendering of a byte list (`hash.digest('hex')`). -/
def hexDigest (bytes : List Nat) : String := String.mk (bytes.map hexByte).flatten

/-- UTF-8 bytes of an ASCII string (`hash.update(s, 'utf8')` for the
ASCII strings this service feeds in). -/
def strBytes (s : String) : List Nat := s.data.map Char.toNat

/-! ### JavaScript `Map` as an association list: `set` overwrites in place
(keeping insertion order) or appends, `get` returns the value or `undefined`,
`delete` removes the entry. -/

def mapLookup {β : Type} : List (String × β) → String → Option β
  | [], _ => none
  | (k0, v0) :: rest, k => if k0 = k then some v0 else mapLookup rest k

def mapSet {β : Type} : List (String × β) → String → β → List (String × β)
  | [], k, v => [(k, v)]
  | (k0, v0) :: rest, k, v =>
      if k0 = k then (k, v) :: rest else (k0, v0) :: mapSet rest k v

def mapDelete {β : Type} : List (String × β) → String → List (String × β)
  | [], _ => []
  | (k0, v0) :: rest, k => if k0 = k then rest else (k0, v0) :: mapDelete rest k

/-! ### MockIPFSService (src/unnamed/part_004)

`mockStorage` maps a mock hash to a stored blob.  The JS blob object is
`{data, filename, size, storedAt, mimetype}`, to which `pin`/`unpin` later add
a `pinned` flag; `mimetype` and the `pinnedAt`/`unpinnedAt` timestamps are
never read by any operation a claim is about and are not modelled, nor is the
optional write of the buffer to the `uploads/` directory (a disk-cache side
effect).  A fresh store entry has no `pinned` field, i.e. `pinned := false`. -/

structure MockBlob where
  data : List Nat
  filename : Option String
  size : Nat
  storedAt : Nat
  pinned : Bool
deriving DecidableEq

/-- `MockIPFSService.generateMockHash` (part_004 lines 34-51): sha256 of the
buffer, then `hash.update(Date.now().toString())` "for uniqueness", hex digest
truncated to 44 chars behind a `Qm` marker. -/
def generateMockHash (data : List Nat) (now : Nat) : String :=
  "Qm" ++ String.mk ((hexDigest (sha256 (data ++ strBytes (toString now)))).data.take 44)

/-- `MockIPFSService.storeDataLocally` (part_004 lines 54-78): hash the buffer
(at the current clock reading) and `Map.set` the blob under that hash. -/
def storeDataLocally (st : List (String × MockBlob)) (buffer : List Nat)
    (filename : Option String) (now : Nat) : String × List (String × MockBlob) :=
  let mockHash := generateMockHash buffer now
  (mockHash,
   mapSet st mockHash
     { data := buffer, filename := filename, size := buffer.length,
       storedAt := now, pinned := false })

/-- `MockIPFSService.retrieveData` (part_004 lines 298-317): returns the stored
bytes, or a placeholder byte buffer when the hash is unknown. -/
def retrieveData (st : List (String × MockBlob)) (h : String) : List Nat :=
  match mapLookup st h with
  | some blob => blob.data
  | none => strBytes ("Mock data for hash " ++ h ++ " (not found)")

/-- `MockIPFSService.pin` (part_004 lines 319-330): sets `pinned = true` on an
existing entry, no-op on an unknown hash. -/
def pin (st : List (String × MockBlob)) (h : String) : List (String × MockBlob) :=
  match mapLookup st h with
  | some blob => mapSet st h { blob with pinned := true }
  | none => st

/-- `MockIPFSService.unpin` (part_004 lines 332-342). -/
def unpin (st : List (String × MockBlob)) (h : String) : List (String × MockBlob) :=
  match mapLookup st h with
  | some blob => mapSet st h { blob with pinned := false }
  | none => st

/-- Chunk-store entry (`chunkData`, part_004 lines 110-121): only the fields
`cleanupOldChunks` reads are modelled (`ipfsHash`, `uploadedAt`, plus the
identifying `streamId`/`chunkIndex`); `localPath` disk deletion is a
filesystem side effect outside the store state. -/
structure ChunkData where
  ipfsHash : String
  streamId : String
  chunkIndex : Nat
  uploadedAt : Nat
deriving DecidableEq

/-- First loop of `cleanupOldChunks` (part_004 lines 396-416): for every chunk
entry older than the cutoff, delete the blob under its `ipfsHash`, drop the
chunk entry and count it.  No `pinned` check appears in the source. -/
def cleanupPhase1 : List (String × ChunkData) → List (String × MockBlob) → Nat →
    List (String × ChunkData) × List (String × MockBlob) × Nat
  | [], ms, _ => ([], ms, 0)
  | (k, cd) :: rest, ms, cutoff =>
      if cd.uploadedAt < cutoff then
        let r := cleanupPhase1 rest (mapDelete ms cd.ipfsHash) cutoff
        (r.1, r.2.1, r.2.2 + 1)
      else
        let r := cleanupPhase1 rest ms cutoff
        ((k, cd) :: r.1, r.2.1, r.2.2)

/-- Second loop of `cleanupOldChunks` (part_004 lines 418-424): delete every
blob stored before the cutoff ("orphaned mock storage").  Again no `pinned`
check appears in the source. -/
def cleanupPhase2 (ms : List (String × MockBlob)) (cutoff : Nat) :
    List (String × MockBlob) :=
  ms.filter (fun p => ¬ p.2.storedAt < cutoff)

/-- `MockIPFSService.cleanupOldChunks` (part_004 lines 388-432); the cutoff
instant (`now` minus `olderThanDays` days) is passed in directly.  Returns the
updated chunk store, the updated blob store and `cleanedCount` (which counts
only removed chunk entries, not blobs removed by the orphan sweep). -/
def cleanupOldChunks (cs : List (String × ChunkData)) (ms : List (String × MockBlob))
    (cutoff : Nat) : List (String × ChunkData) × List (String × MockBlob) × Nat :=
  let r := cleanupPhase1 cs ms cutoff
  (r.1, cleanupPhase2 r.2.1 cutoff, r.2.2)

/-! ### ArweaveService (src/services/arweave.js) -/

/-- `queueItem.metadata` (arweave.js lines 54-61). -/
structure ArchMetadata where
  streamId : String
  chunkIndex : Nat
  timestamp : Nat
  userId : String
  ipfsHash : String
  size : Nat
deriving DecidableEq

/-- `queueItem` (arweave.js lines 51-64); `queuedAt` in clock milliseconds. -/
structure QueueItem where
  id : String
  data : List Nat
  metadata : ArchMetadata
  attempts : Nat
  queuedAt : Nat
deriving DecidableEq

/-- The `data` argument of `queueForArchival`. -/
structure ArchivalRequest where
  streamId : String
  chunkIndex : Nat
  data : List Nat
  timestamp : Nat
  userId : String
  ipfsHash : String
deriving DecidableEq

/-- The queue item built by `queueForArchival` (arweave.js lines 51-64):
`id = streamId + "_" + chunkIndex`, `attempts = 0`. -/
def mkQueueItem (d : ArchivalRequest) (now : Nat) : QueueItem :=
  { id := d.streamId ++ "_" ++ toString d.chunkIndex,
    data := d.data,
    metadata :=
      { streamId := d.streamId, chunkIndex := d.chunkIndex,
        timestamp := d.timestamp, userId := d.userId,
        ipfsHash := d.ipfsHash, size := d.data.length },
    attempts := 0, queuedAt := now }

/-- `ArweaveService.queueForArchival` (arweave.js lines 49-79): unconditionally
pushes a fresh item onto `uploadQueue` and returns `true`; there is no lookup
of an existing id and no payload-size check anywhere in the function. -/
def queueForArchival (uploadQueue : List QueueItem) (d : ArchivalRequest)
    (now : Nat) : List QueueItem × Bool :=
  (uploadQueue ++ [mkQueueItem d now], true)

/-- Entry of the `archivedItems` map (arweave.js lines 97-101). -/
structure ArchivedRecord where
  transactionId : String
  archivedAt : Nat
  metadata : ArchMetadata
deriving DecidableEq

/-- Result of one `uploadToArweave` call as seen by the drain loop: either the
submitted transaction id or a thrown (transient) error. -/
inductive Outcome where
  | success (txId : String)
  | failure
deriving DecidableEq

/-- What one iteration of the `processQueue` while-loop (arweave.js lines
90-117) does with the shifted item. -/
inductive StepResult where
  | archived (rec : ArchivedRecord)
  | retryAfter (delay : Nat) (item : QueueItem)
  | failed (item : QueueItem)
deriving DecidableEq

/-- One iteration of the drain loop for one item (arweave.js lines 90-117):
on success record an `ArchivedRecord`; on a thrown error increment `attempts`,
and if the incremented count is still `< 3` schedule a re-push after
`Math.pow(2, item.attempts) * 5000` ms (the increment happens BEFORE the
delay is computed), else drop the item ("Max retries exceeded"). -/
def processItem (item : QueueItem) (out : Outcome) (now : Nat) : StepResult :=
  match out with
  | .success tx =>
      .archived { transactionId := tx, archivedAt := now, metadata := item.metadata }
  | .failure =>
      let item' := { item with attempts := item.attempts + 1 }
      if item'.attempts < 3 then .retryAfter (2 ^ item'.attempts * 5000) item'
      else .failed item'

/-- Terminal fate of a queue item. -/
inductive FinalState where
  | archived (rec : ArchivedRecord)
  | failed (item : QueueItem)
deriving DecidableEq

/-- Iterated drain of a single item: each retry scheduled by `processItem`
re-enters the queue and is eventually shifted and attempted again.  `oracle`
gives the outcome of the submission as a function of the attempt counter.
Returns (number of submission attempts made, retry delays scheduled in order,
terminal fate); `none` when the fuel runs out before a terminal state. -/
def drainItemFuel (oracle : Nat → Outcome) :
    Nat → QueueItem → Nat → Nat × List Nat × Option FinalState
  | 0, _, _ => (0, [], none)
  | fuel + 1, item, now =>
      match processItem item (oracle item.attempts) now with
      | .archived rec => (1, [], some (.archived rec))
      | .failed it => (1, [], some (.failed it))
      | .retryAfter d it =>
          let r := drainItemFuel oracle fuel it now
          (r.1 + 1, d :: r.2.1, r.2.2)

/-- A submission attempt that always throws a transient error. -/
def alwaysFail : Nat → Outcome := fun _ => Outcome.failure

/-- A submission attempt observed by the rate-floor model. -/
structure SubmissionEvent where
  time : Nat
  itemId : String
  ok : Bool
deriving DecidableEq

/-- Timing skeleton of one `processQueue` run (arweave.js lines 89-121) over
the items drained in this run: each iteration shifts one item, attempts its
submission (at the current instant), and then — regardless of outcome —
performs `await this.sleep(2000)` before the next iteration.  Network time is
taken as 0, which only under-approximates the real span.  Returns the
submission events and the finishing instant. -/
def processQueueRun (oracle : QueueItem → Outcome) :
    List QueueItem → Nat → List SubmissionEvent × Nat
  | [], t => ([], t)
  | item :: rest, t =>
      let ok := match oracle item with
        | .success _ => true
        | .failure => false
      let r := processQueueRun oracle rest (t + 2000)
      ({ time := t, itemId := item.id, ok := ok } :: r.1, r.2)

/-- Element of `getStreamStatus(...).transactions` (arweave.js lines 185-190). -/
structure TxEntry where
  id : String
  chunkIndex : Nat
  archivedAt : Nat
  size : Nat
deriving DecidableEq

/-- Result of `getStreamStatus` (arweave.js lines 194-198). -/
structure StreamStatus where
  streamId : String
  archivedCount : Nat
  transactions : List TxEntry
deriving DecidableEq

/-- `ArweaveService.getStreamStatus` (arweave.js lines 177-203): scan
`archivedItems` for entries whose `metadata.streamId` matches, count them,
collect their transaction entries, and sort ascending by `chunkIndex`
(`transactions.sort((a, b) => a.chunkIndex - b.chunkIndex)`). -/
def getStreamStatus (archivedItems : List (String × ArchivedRecord))
    (streamId : String) : StreamStatus :=
  let matched := archivedItems.filter (fun p => p.2.metadata.streamId == streamId)
  { streamId := streamId,
    archivedCount := matched.length,
    transactions :=
      List.insertionSort (fun a b => a.chunkIndex ≤ b.chunkIndex)
        (matched.map (fun p =>
          { id := p.2.transactionId, chunkIndex := p.2.metadata.chunkIndex,
            archivedAt := p.2.archivedAt, size := p.2.metadata.size })) }

instance : IsTrans TxEntry (fun a b => a.chunkIndex ≤ b.chunkIndex) :=
  ⟨fun _ _ _ hab hbc => Nat.le_trans hab hbc⟩

instance : IsTotal TxEntry (fun a b => a.chunkIndex ≤ b.chunkIndex) :=
  ⟨fun a b => Nat.le_total a.chunkIndex b.chunkIndex⟩

/-- Concrete three-item queue used to instantiate the rate-floor theorem. -/
def c8Queue : List QueueItem :=
  [{ id := "s_0", data := [1], metadata := ⟨"s", 0, 0, "u", "h0", 1⟩, attempts := 0, queuedAt := 0 },
   { id := "s_1", data := [2], metadata := ⟨"s", 1, 0, "u", "h1", 1⟩, attempts := 0, queuedAt := 0 },
   { id := "s_2", data := [3], metadata := ⟨"s", 2, 0, "u", "h2", 1⟩, attempts := 0, queuedAt := 0 }]

/-- Concrete archived-items index (inserted out of chunk order, with a second
stream mixed in) used to instantiate the stream-status theorems. -/
def c10Items : List (String × ArchivedRecord) :=
  [("s_1", ⟨"tx1", 5, ⟨"s", 1, 0, "u", "h1", 3⟩⟩),
   ("s_0", ⟨"tx0", 9, ⟨"s", 0, 0, "u", "h0", 4⟩⟩),
   ("r_0", ⟨"txr", 1, ⟨"r", 0, 0, "u", "hr", 2⟩⟩)]

/-! ### Helper lemmas -/

theorem mapSet_mapSet_length {β : Type} (m : List (String × β)) (k : String) (v v' : β) :
    (mapSet (mapSet m k v) k v').length = (mapSet m k v).length := by
  induction m with
  | nil => simp [mapSet]
  | cons p rest ih =>
    obtain ⟨k0, v0⟩ := p
    by_cases h : k0 = k
    · simp [mapSet, h]
    · simp [mapSet, h, ih]

theorem all_filter_self {α : Type} (p : α → Bool) (l : List α) :
    (l.filter p).all p = true := by
  induction l with
  | nil => rfl
  | cons a t ih =>
    by_cases h : p a = true
    · simp [List.filter_cons, h, ih]
    · simp [List.filter_cons, h, ih]

theorem cleanupPhase1_count (cs : List (String × ChunkData))
    (ms : List (String × MockBlob)) (cutoff : Nat) :
    (cleanupPhase1 cs ms cutoff).2.2 =
      (cs.filter (fun p => p.2.uploadedAt < cutoff)).length := by
  induction cs generalizing ms with
  | nil => rfl
  | cons p rest ih =>
    obtain ⟨k, cd⟩ := p
    by_cases h : cd.uploadedAt < cutoff
    · simp [cleanupPhase1, List.filter_cons, h, ih]
    · simp [cleanupPhase1, List.filter_cons, h, ih]

theorem processQueueRun_time (oracle : QueueItem → Outcome) (q : List QueueItem) :
    ∀ (t0 i : Nat), i < q.length →
      (((processQueueRun oracle q t0).1).getD i ⟨0, "", false⟩).time = t0 + 2000 * i := by
  induction q with
  | nil => intro t0 i hi; simp at hi
  | cons a rest ih =>
    intro t0 i hi
    cases i with
    | zero => simp [processQueueRun]
    | succ n =>
      have hn : n < rest.length := by simpa using Nat.lt_of_succ_lt_succ hi
      have step : ((processQueueRun oracle (a :: rest) t0).1).getD (n + 1) ⟨0, "", false⟩ =
          ((processQueueRun oracle rest (t0 + 2000)).1).getD n ⟨0, "", false⟩ := by
        simp [processQueueRun]
      rw [step, ih (t0 + 2000) n hn]
      omega

/-! ### Claims -/

/-- Claim C1 counterexample: `queueForArchival` is NOT idempotent.  With an
item of id `s_0` already pending in the queue, a second call for the same
`(streamId, chunkIndex)` leaves two queue items with id `s_0` (the first call
left exactly one). -/
theorem C1_counterexample :
    ((queueForArchival []
        { streamId := "s", chunkIndex := 0, data := [1, 2], timestamp := 0,
          userId := "u", ipfsHash := "h" } 0).1.countP
        (fun it => it.id == "s_0")) = 1 ∧
    ((queueForArchival
        (queueForArchival []
          { streamId := "s", chunkIndex := 0, data := [1, 2], timestamp := 0,
            userId := "u", ipfsHash := "h" } 0).1
        { streamId := "s", chunkIndex := 0, data := [1, 2], timestamp := 0,
          userId := "u", ipfsHash := "h" } 1).1.countP
        (fun it => it.id == "s_0")) = 2 := by
  decide

/-- Claim C1 (amended): `queueForArchival` performs no duplicate check — every
call appends a fresh `QueueItem` with id `{streamId}_{chunkIndex}` and returns
accepted, so a repeated call for the same `(streamId, chunkIndex)` strictly
increases the number of queue items carrying that id (the payload is counted
again rather than deduplicated). -/
theorem C1_amended (q : List QueueItem) (d : ArchivalRequest) (now : Nat) :
    (queueForArchival q d now).2 = true ∧
    (queueForArchival q d now).1.countP (fun it => it.id == (mkQueueItem d now).id) =
      q.countP (fun it => it.id == (mkQueueItem d now).id) + 1 := by
  refine ⟨rfl, ?_⟩
  simp [queueForArchival, List.countP_append, List.countP_cons]

/-- Claim C3: an item whose submissions always fail transiently is attempted
exactly 3 times: starting from `attempts = 0` and any remaining fuel, the
drain makes exactly 3 submission attempts, schedules exactly the two retry
delays, and terminates with the item dropped ("Max retries exceeded") at
`attempts = 3` — never a 4th attempt, never dropped with fewer than 3. -/
theorem C3_retry_bound (item : QueueItem) (now k : Nat) (h : item.attempts = 0) :
    drainItemFuel alwaysFail (k + 3) item now =
      (3, [10000, 20000], some (FinalState.failed { item with attempts := 3 })) := by
  obtain ⟨i0, dt, md, att, qa⟩ := item
  change att = 0 at h
  subst h
  show drainItemFuel alwaysFail ((k + 2) + 1) ⟨i0, dt, md, 0, qa⟩ now = _
  simp only [drainItemFuel, processItem, alwaysFail]
  norm_num

/-- Witness for C3 at a concrete item. -/
theorem C3_witness :
    drainItemFuel alwaysFail 3
      { id := "s_0", data := [1], metadata := ⟨"s", 0, 0, "u", "h", 1⟩,
        attempts := 0, queuedAt := 0 } 0 =
      (3, [10000, 20000],
       some (FinalState.failed
        { id := "s_0", data := [1], metadata := ⟨"s", 0, 0, "u", "h", 1⟩,
          attempts := 3, queuedAt := 0 })) :=
  C3_retry_bound _ 0 0 rfl

/-- Claim C4 counterexample: the first transient failure of a fresh item
(`attempts = 0`) schedules its retry after 10000 ms, not the 5000 ms the
claimed sequence (5s, 10s, 20s) begins with — `item.attempts` is incremented
BEFORE `Math.pow(2, item.attempts) * 5000` is computed. -/
theorem C4_counterexample :
    processItem
      { id := "s_0", data := [1], metadata := ⟨"s", 0, 0, "u", "h", 1⟩,
        attempts := 0, queuedAt := 0 } Outcome.failure 0 =
      StepResult.retryAfter 10000
        { id := "s_0", data := [1], metadata := ⟨"s", 0, 0, "u", "h", 1⟩,
          attempts := 1, queuedAt := 0 } ∧
    (10000 : Nat) ≠ 5000 := by
  decide

/-- Claim C4 (amended): on a transient failure the retry delay is
`2 ^ attempts * 5000` ms where `attempts` is the POST-increment counter, and
the item (with the incremented counter) is returned to the pending queue; an
item starting at `attempts = 0` therefore sees the delay sequence 10s, 20s
across its (two) scheduled retries. -/
theorem C4_amended (item : QueueItem) (now : Nat) :
    (item.attempts + 1 < 3 →
      processItem item Outcome.failure now =
        StepResult.retryAfter (2 ^ (item.attempts + 1) * 5000)
          { item with attempts := item.attempts + 1 }) ∧
    (item.attempts = 0 → (drainItemFuel alwaysFail 3 item now).2.1 = [10000, 20000]) := by
  constructor
  · intro h
    simp [processItem, h]
  · intro h
    obtain ⟨i0, dt, md, att, qa⟩ := item
    change att = 0 at h
    subst h
    show (drainItemFuel alwaysFail (2 + 1) ⟨i0, dt, md, 0, qa⟩ now).2.1 = [10000, 20000]
    simp only [drainItemFuel, processItem, alwaysFail]
    norm_num

/-- Witness for C4 at concrete items. -/
theorem C4_witness :
    processItem
      { id := "a_1", data := [2], metadata := ⟨"a", 1, 0, "u", "h", 1⟩,
        attempts := 1, queuedAt := 0 } Outcome.failure 0 =
      StepResult.retryAfter 20000
        { id := "a_1", data := [2], metadata := ⟨"a", 1, 0, "u", "h", 1⟩,
          attempts := 2, queuedAt := 0 } ∧
    (drainItemFuel alwaysFail 3
      { id := "b_0", data := [3], metadata := ⟨"b", 0, 0, "u", "h", 1⟩,
        attempts := 0, queuedAt := 0 } 0).2.1 = [10000, 20000] :=
  ⟨(C4_amended _ 0).1 (by decide), (C4_amended _ 0).2 rfl⟩

/-- Claim C6 counterexample: `retrieveData` on an address unknown to the store
does NOT fail — it returns a non-empty placeholder byte buffer
(`"Mock data for hash {hash} (not found)"`). -/
theorem C6_counterexample :
    retrieveData [] "QmX" = strBytes "Mock data for hash QmX (not found)" ∧
    retrieveData [] "QmX" ≠ [] := by
  decide

/-- Claim C6 (amended): for an address present in the store `retrieveData`
returns exactly the stored bytes; for an unknown address it returns the
placeholder byte buffer instead of failing with `NotFound`. -/
theorem C6_amended (ms : List (String × MockBlob)) (h : String) :
    (mapLookup ms h = none →
      retrieveData ms h = strBytes ("Mock data for hash " ++ h ++ " (not found)")) ∧
    (∀ blob, mapLookup ms h = some blob → retrieveData ms h = blob.data) := by
  constructor
  · intro he; simp [retrieveData, he]
  · intro blob he; simp [retrieveData, he]

/-- Witness for C6: a one-entry store hit and a miss. -/
theorem C6_witness :
    retrieveData [("a", ⟨[7], none, 1, 0, false⟩)] "a" = [7] ∧
    retrieveData [("a", ⟨[7], none, 1, 0, false⟩)] "z" =
      strBytes ("Mock data for hash " ++ "z" ++ " (not found)") :=
  ⟨(C6_amended [("a", ⟨[7], none, 1, 0, false⟩)] "a").2 ⟨[7], none, 1, 0, false⟩ rfl,
   (C6_amended [("a", ⟨[7], none, 1, 0, false⟩)] "z").1 rfl⟩

/-- Claim C7 counterexample: a payload of 52428801 bytes (> 50 MiB) is
accepted by `queueForArchival` — the item is pushed and `true` returned; no
size bound is checked. -/
theorem C7_counterexample :
    (queueForArchival []
      { streamId := "s", chunkIndex := 0, data := List.replicate 52428801 0,
        timestamp := 0, userId := "u", ipfsHash := "h" } 0).2 = true ∧
    (queueForArchival []
      { streamId := "s", chunkIndex := 0, data := List.replicate 52428801 0,
        timestamp := 0, userId := "u", ipfsHash := "h" } 0).1.length = 1 ∧
    52428800 <
      ({ streamId := "s", chunkIndex := 0, data := List.replicate 52428801 0,
         timestamp := 0, userId := "u", ipfsHash := "h" } : ArchivalRequest).data.length := by
  refine ⟨rfl, rfl, ?_⟩
  show 52428800 < (List.replicate 52428801 (0 : Nat)).length
  simp only [List.length_replicate]
  omega

/-- Claim C7 (amended): `queueForArchival` enforces no payload bound at all —
for every request, of any size, it appends the item and returns accepted. -/
theorem C7_amended (q : List QueueItem) (d : ArchivalRequest) (now : Nat) :
    queueForArchival q d now = (q ++ [mkQueueItem d now], true) := rfl

/-- Claim C2 counterexample: content addressing is NOT deterministic — the
digest mixes in `Date.now()`, so storing the identical bytes `[104, 105]` at
clock readings 0 and 1 yields two different content addresses, and after the
two stores the store holds two blobs, not one. -/
theorem C2_counterexample :
    generateMockHash [104, 105] 0 ≠ generateMockHash [104, 105] 1 ∧
    ((storeDataLocally ((storeDataLocally [] [104, 105] none 0).2)
        [104, 105] none 1).2).length = 2 := by
  constructor
  · decide
  · decide

/-- Claim C2 (amended): `generateMockHash` hashes the buffer together with the
current clock reading, so content addressing is deterministic only per clock
instant: two `storeDataLocally` calls with identical bytes at the SAME clock
reading return the same address, and the second call leaves the store size
unchanged (it overwrites the single blob under that address rather than
adding one). -/
theorem C2_amended (st : List (String × MockBlob)) (b : List Nat)
    (fn : Option String) (t : Nat) :
    (storeDataLocally ((storeDataLocally st b fn t).2) b fn t).1 =
      (storeDataLocally st b fn t).1 ∧
    ((storeDataLocally ((storeDataLocally st b fn t).2) b fn t).2).length =
      ((storeDataLocally st b fn t).2).length := by
  refine ⟨rfl, ?_⟩
  simp only [storeDataLocally]
  exact mapSet_mapSet_length st _ _ _

/-- Claim C5 counterexample: pinning does NOT protect a blob from cleanup.
A blob stored at instant 0 and then pinned (the `pin` call does set its
`pinned` flag) is nevertheless removed by `cleanupOldChunks` with cutoff 100:
the blob store comes back empty. -/
theorem C5_counterexample :
    pin [("Qmx", ⟨[1], none, 1, 0, false⟩)] "Qmx" =
      [("Qmx", ⟨[1], none, 1, 0, true⟩)] ∧
    (cleanupOldChunks [] (pin [("Qmx", ⟨[1], none, 1, 0, false⟩)] "Qmx") 100).2.1 = [] := by
  decide

/-- Claim C5 (amended): `cleanupOldChunks` never consults the `pinned` flag —
it removes every blob older than the cutoff, pinned or not (afterwards every
remaining blob satisfies `cutoff ≤ storedAt`), and the returned count is the
number of removed chunk-store entries (`uploadedAt < cutoff`), not the number
of removed blobs. -/
theorem C5_amended (cs : List (String × ChunkData)) (ms : List (String × MockBlob))
    (cutoff : Nat) :
    ((cleanupOldChunks cs ms cutoff).2.1.all (fun p => ¬ p.2.storedAt < cutoff)) = true ∧
    (cleanupOldChunks cs ms cutoff).2.2 =
      (cs.filter (fun p => p.2.uploadedAt < cutoff)).length := by
  constructor
  · exact all_filter_self _ _
  · exact cleanupPhase1_count cs ms cutoff

/-- Claim C8: the drain loop sleeps 2000 ms after every submission attempt
regardless of outcome, so across one run the i-th and j-th submissions (i ≤ j)
are at least (j - i) * 2000 ms apart; in particular N consecutive successful
submissions span at least (N - 1) * 2000 ms. -/
theorem C8_rate_floor (oracle : QueueItem → Outcome) (q : List QueueItem)
    (t0 i j : Nat) (hij : i ≤ j) (hj : j < q.length) :
    (j - i) * 2000 ≤
      (((processQueueRun oracle q t0).1).getD j ⟨0, "", false⟩).time -
      (((processQueueRun oracle q t0).1).getD i ⟨0, "", false⟩).time := by
  rw [processQueueRun_time oracle q t0 j hj,
      processQueueRun_time oracle q t0 i (Nat.lt_of_le_of_lt hij hj)]
  omega

/-- Witness for C8: three consecutive successful submissions span at least
(3 - 1) * 2000 ms. -/
theorem C8_witness :
    (2 - 0) * 2000 ≤
      (((processQueueRun (fun _ => Outcome.success "t") c8Queue 0).1).getD 2 ⟨0, "", false⟩).time -
      (((processQueueRun (fun _ => Outcome.success "t") c8Queue 0).1).getD 0 ⟨0, "", false⟩).time :=
  C8_rate_floor (fun _ => Outcome.success "t") c8Queue 0 0 2 (by decide) (by decide)

/-- Claim C9: for every archived-items index and stream id, `getStreamStatus`
returns its `transactions` sorted ascending by `chunkIndex` — regardless of
the order in which items were archived. -/
theorem C9_stream_status_ordering (items : List (String × ArchivedRecord))
    (sid : String) :
    List.Sorted (fun a b => a.chunkIndex ≤ b.chunkIndex)
      (getStreamStatus items sid).transactions := by
  simp only [getStreamStatus]
  exact List.sorted_insertionSort _ _

/-- Claim C10: `getStreamStatus` reports `archivedCount` equal to the length
of `transactions`, and every transaction entry is derived from an archived
item whose `metadata.streamId` is the queried stream — other streams' items
never appear. -/
theorem C10_stream_status_consistency (items : List (String × ArchivedRecord))
    (sid : String) :
    (getStreamStatus items sid).archivedCount =
      (getStreamStatus items sid).transactions.length ∧
    ∀ t ∈ (getStreamStatus items sid).transactions,
      ∃ p ∈ items, p.2.metadata.streamId = sid ∧
        t = { id := p.2.transactionId, chunkIndex := p.2.metadata.chunkIndex,
              archivedAt := p.2.archivedAt, size := p.2.metadata.size } := by
  constructor
  · simp only [getStreamStatus]
    rw [(List.perm_insertionSort _ _).length_eq, List.length_map]
  · intro t ht
    simp only [getStreamStatus] at ht
    rw [(List.perm_insertionSort _ _).mem_iff] at ht
    obtain ⟨p, hp, rfl⟩ := List.mem_map.mp ht
    obtain ⟨hpi, hps⟩ := List.mem_filter.mp hp
    exact ⟨p, hpi, by simpa using hps, rfl⟩

/-- Witness for C10 on a concrete out-of-order index with a second stream
mixed in. -/
theorem C10_witness :
    (getStreamStatus c10Items "s").archivedCount =
      (getStreamStatus c10Items "s").transactions.length ∧
    ∃ p ∈ c10Items, p.2.metadata.streamId = "s" ∧
      ({ id := "tx0", chunkIndex := 0, archivedAt := 9, size := 4 } : TxEntry) =
        { id := p.2.transactionId, chunkIndex := p.2.metadata.chunkIndex,
          archivedAt := p.2.archivedAt, size := p.2.metadata.size } :=
  ⟨(C10_stream_status_consistency c10Items "s").1,
   (C10_stream_status_consistency c10Items "s").2
     { id := "tx0", chunkIndex := 0, archivedAt := 9, size := 4 } (by decide)⟩

end Zipiq

